import Mathlib

/-!
Verification of the headless control plane of the pi coding agent
(`packages/coding-agent/src/modes/rpc/rpc-commands.ts`,
`packages/coding-agent/src/modes/http/http-server.ts`,
`packages/coding-agent/src/modes/http/http-mode.ts`).

The TypeScript sources are shallowly embedded: JSON values are an inductive
`Json`, JavaScript property access / truthiness are modelled explicitly, the
stateful pieces (SSE subscriber set, pending extension-UI request map,
promise resolution) are modelled as explicit state passing or small step
functions, and asynchronous callbacks are recorded as explicit effect lists.
`JSON.parse` of the runtime is abstracted as a `String → JsonParseResult`
parameter; command execution against the agent session is modelled as total
(the per-command session method results are fields of `AgentSession`).
-/

/-- A JSON value, as produced by the runtime's `JSON.parse`. -/
inductive Json where
  | null
  | bool (b : Bool)
  | num (n : Int)
  | str (s : String)
  | arr (elems : List Json)
  | obj (fields : List (String × Json))

/-- JavaScript property access `j[k]` on a parsed JSON value: `some v` when the
field is present, `none` when it is absent or the value is not an object
(`undefined`). -/
def Json.get (j : Json) (k : String) : Option Json :=
  match j with
  | .obj fields => fields.lookup k
  | _ => none

/-- JavaScript truthiness of a parsed JSON value (`!v` is `!jsTruthy v`). -/
def jsTruthy : Json → Bool
  | .null => false
  | .bool b => b
  | .num n => n != 0
  | .str s => s != ""
  | .arr _ => true
  | .obj _ => true

/-- JavaScript template-literal stringification of a value, as in
`` `Unknown command: ${t}` ``. -/
def jsDisplay : Json → String
  | .null => "null"
  | .bool b => if b then "true" else "false"
  | .num n => toString n
  | .str s => s
  | .arr xs => String.intercalate "," (xs.map fun j =>
      match j with
      | .null => ""
      | .bool b => if b then "true" else "false"
      | .num n => toString n
      | .str s => s
      | .arr _ => ""
      | .obj _ => "[object Object]")
  | .obj _ => "[object Object]"

/-- Stringification of a possibly-`undefined` value. -/
def jsDisplayOpt : Option Json → String
  | none => "undefined"
  | some j => jsDisplay j

/-- True iff `j` is a JSON object. -/
def Json.isObj : Json → Bool
  | .obj _ => true
  | _ => false

/-- Strict JS equality `j.get k === s` between a field and a string literal. -/
def fieldIsStrVal (j : Json) (k v : String) : Bool :=
  match j.get k with
  | some (Json.str s) => s = v
  | _ => false

/-- The `type` field of a command when it is a string
(`typeof command.type === "string"`). -/
def getTypeString (j : Json) : Option String :=
  match j.get "type" with
  | some (Json.str s) => some s
  | _ => none

/-- The `id` field of a command when it is a string. -/
def getStrField (j : Json) (k : String) : Option String :=
  match j.get k with
  | some (Json.str s) => some s
  | _ => none

-- ===========================================================================
-- rpc-commands.ts: RpcResponse and the response helpers
-- ===========================================================================

/-- `RpcResponse` from `rpc-types.ts` as constructed by `rpc-commands.ts`:
`{id, type: "response", command, success, data?, error?}`. `rtype` embeds the
`type` field (a Lean keyword); `none` in an `Option` field means the field is
`undefined` (dropped by `JSON.stringify`). The `command` field is `Option Json`
because the default (unknown-command) case passes the raw `command.type`
value through. -/
structure RpcResponse where
  id : Option Json
  rtype : String
  command : Option Json
  success : Bool
  data : Option Json
  error : Option String

/-- The `success(id, command, data?)` helper of `rpc-commands.ts`. -/
def successResp (id : Option Json) (command : String) (data : Option Json) : RpcResponse :=
  { id := id, rtype := "response", command := some (Json.str command),
    success := true, data := data, error := none }

/-- The `error(id, command, message)` helper of `rpc-commands.ts`. -/
def errorResp (id : Option Json) (command : Option Json) (message : String) : RpcResponse :=
  { id := id, rtype := "response", command := command,
    success := false, data := none, error := some message }

/-- `JSON.stringify` of an `RpcResponse` as a JSON object: `undefined`-valued
fields are dropped, in declaration order. -/
def rpcResponseToJson (r : RpcResponse) : Json :=
  Json.obj
    ((match r.id with | some v => [("id", v)] | none => []) ++
     [("type", Json.str r.rtype)] ++
     (match r.command with | some v => [("command", v)] | none => []) ++
     [("success", Json.bool r.success)] ++
     (match r.data with | some v => [("data", v)] | none => []) ++
     (match r.error with | some m => [("error", Json.str m)] | none => []))

-- ===========================================================================
-- rpc-commands.ts: the agent session as seen by the command handler
-- ===========================================================================

/-- One entry of `session.getAvailableModels()` (provider and model id are the
fields the command handler reads). -/
structure ModelInfo where
  provider : String
  id : String
deriving DecidableEq

/-- JSON encoding of a model, as returned in `set_model` / `cycle_model`
response data. -/
def modelInfoToJson (m : ModelInfo) : Json :=
  Json.obj [("provider", Json.str m.provider), ("id", Json.str m.id)]

/-- The `AgentSession` surface consumed by `createCommandHandler`, modelled as
the results its methods and properties produce. `promptOutcome` is the eventual
outcome of the promise returned by `session.prompt(...)` (which the handler
does not await). Session methods are modelled as total. -/
structure AgentSession where
  model : Json
  thinkingLevel : Json
  isStreaming : Bool
  isCompacting : Bool
  steeringMode : Json
  followUpMode : Json
  sessionFile : Json
  sessionId : String
  autoCompactionEnabled : Bool
  messages : List Json
  pendingMessageCount : Int
  availableModels : List ModelInfo
  promptOutcome : Except String Unit
  cycleModelResult : Option ModelInfo
  cycleThinkingLevelResult : Option Json
  compactResult : Json
  bashResult : Json
  sessionStats : Json
  exportHtmlPath : String
  newSessionOk : Bool
  switchSessionOk : Bool
  forkSelectedText : Json
  forkCancelled : Bool
  forkMessages : List Json
  lastAssistantText : Json
  stateError : Option String

/-- The `RpcSessionState` object built by the `get_state` case. -/
def sessionStateJson (s : AgentSession) : Json :=
  Json.obj
    [("model", s.model),
     ("thinkingLevel", s.thinkingLevel),
     ("isStreaming", Json.bool s.isStreaming),
     ("isCompacting", Json.bool s.isCompacting),
     ("steeringMode", s.steeringMode),
     ("followUpMode", s.followUpMode),
     ("sessionFile", s.sessionFile),
     ("sessionId", Json.str s.sessionId),
     ("autoCompactionEnabled", Json.bool s.autoCompactionEnabled),
     ("messageCount", Json.num (Int.ofNat s.messages.length)),
     ("pendingMessageCount", Json.num s.pendingMessageCount)]

/-- A recorded invocation of the optional `onAsyncError(id, command, message)`
callback. -/
abbrev AsyncErrorCall := Option Json × String × String

/-- The closed set of command types handled by the `switch` in
`createCommandHandler`. -/
def knownCommandTypes : List String :=
  ["prompt", "steer", "follow_up", "abort", "new_session",
   "get_state",
   "set_model", "cycle_model", "get_available_models",
   "set_thinking_level", "cycle_thinking_level",
   "set_steering_mode", "set_follow_up_mode",
   "compact", "set_auto_compaction",
   "set_auto_retry", "abort_retry",
   "bash", "abort_bash",
   "get_session_stats", "export_html", "switch_session", "fork",
   "get_fork_messages", "get_last_assistant_text",
   "get_messages"]

/-- `createCommandHandler(options)` applied to one command: the `switch` on
`command.type` in `rpc-commands.ts`. Returns the `RpcResponse` together with
the list of `onAsyncError` invocations the command will eventually trigger
(the `prompt` case fires it when the unawaited `session.prompt` promise
rejects). A non-string `type` field falls into the `default` case, whose
response has `id` set to `undefined` and `command` set to the raw
`command.type` value. -/
def handleCommand (s : AgentSession) (cmd : Json) : RpcResponse × List AsyncErrorCall :=
  let id := cmd.get "id"
  match cmd.get "type" with
  | some (Json.str t) =>
    if t = "prompt" then
      (successResp id "prompt" none,
       match s.promptOutcome with
       | .ok _ => []
       | .error e => [(id, "prompt", e)])
    else if t = "steer" then (successResp id "steer" none, [])
    else if t = "follow_up" then (successResp id "follow_up" none, [])
    else if t = "abort" then (successResp id "abort" none, [])
    else if t = "new_session" then
      (successResp id "new_session" (some (Json.obj [("cancelled", Json.bool (!s.newSessionOk))])), [])
    else if t = "get_state" then
      (successResp id "get_state" (some (sessionStateJson s)), [])
    else if t = "set_model" then
      match s.availableModels.find? (fun m =>
          fieldIsStrVal cmd "provider" m.provider && fieldIsStrVal cmd "modelId" m.id) with
      | none =>
          (errorResp id (some (Json.str "set_model"))
            ("Model not found: " ++ jsDisplayOpt (cmd.get "provider") ++ "/" ++
              jsDisplayOpt (cmd.get "modelId")), [])
      | some m => (successResp id "set_model" (some (modelInfoToJson m)), [])
    else if t = "cycle_model" then
      match s.cycleModelResult with
      | none => (successResp id "cycle_model" (some Json.null), [])
      | some m => (successResp id "cycle_model" (some (modelInfoToJson m)), [])
    else if t = "get_available_models" then
      (successResp id "get_available_models"
        (some (Json.obj [("models", Json.arr (s.availableModels.map modelInfoToJson))])), [])
    else if t = "set_thinking_level" then (successResp id "set_thinking_level" none, [])
    else if t = "cycle_thinking_level" then
      match s.cycleThinkingLevelResult with
      | none => (successResp id "cycle_thinking_level" (some Json.null), [])
      | some l => (successResp id "cycle_thinking_level" (some (Json.obj [("level", l)])), [])
    else if t = "set_steering_mode" then (successResp id "set_steering_mode" none, [])
    else if t = "set_follow_up_mode" then (successResp id "set_follow_up_mode" none, [])
    else if t = "compact" then (successResp id "compact" (some s.compactResult), [])
    else if t = "set_auto_compaction" then (successResp id "set_auto_compaction" none, [])
    else if t = "set_auto_retry" then (successResp id "set_auto_retry" none, [])
    else if t = "abort_retry" then (successResp id "abort_retry" none, [])
    else if t = "bash" then (successResp id "bash" (some s.bashResult), [])
    else if t = "abort_bash" then (successResp id "abort_bash" none, [])
    else if t = "get_session_stats" then (successResp id "get_session_stats" (some s.sessionStats), [])
    else if t = "export_html" then
      (successResp id "export_html" (some (Json.obj [("path", Json.str s.exportHtmlPath)])), [])
    else if t = "switch_session" then
      (successResp id "switch_session" (some (Json.obj [("cancelled", Json.bool (!s.switchSessionOk))])), [])
    else if t = "fork" then
      (successResp id "fork"
        (some (Json.obj [("text", s.forkSelectedText), ("cancelled", Json.bool s.forkCancelled)])), [])
    else if t = "get_fork_messages" then
      (successResp id "get_fork_messages" (some (Json.obj [("messages", Json.arr s.forkMessages)])), [])
    else if t = "get_last_assistant_text" then
      (successResp id "get_last_assistant_text" (some (Json.obj [("text", s.lastAssistantText)])), [])
    else if t = "get_messages" then
      (successResp id "get_messages" (some (Json.obj [("messages", Json.arr s.messages)])), [])
    else
      (errorResp none (some (Json.str t)) ("Unknown command: " ++ t), [])
  | tf => (errorResp none tf ("Unknown command: " ++ jsDisplayOpt tf), [])

-- ===========================================================================
-- http-server.ts: response helpers, body parser, router, server dispatch
-- ===========================================================================

/-- An HTTP response as produced by `sendJson`: a status code and the JSON
value that is stringified into the body. -/
structure HttpReply where
  status : Nat
  body : Json

/-- The `sendJson(res, status, data)` helper. -/
def sendJson (status : Nat) (data : Json) : HttpReply :=
  { status := status, body := data }

/-- The `sendError(res, status, message)` helper: `sendJson(res, status,
{error: message})`. -/
def sendError (status : Nat) (message : String) : HttpReply :=
  sendJson status (Json.obj [("error", Json.str message)])

/-- Outcome of the runtime's `JSON.parse` on a request body, abstracted as a
function parameter of the handlers. -/
inductive JsonParseResult where
  | fail
  | ok (j : Json)

/-- An incoming HTTP request: `method` and `url` as Node exposes them
(possibly `undefined`), and the body as the sequence of `data` chunks. -/
structure HttpRequest where
  method : Option String
  url : Option String
  chunks : List String

/-- `MAX_BODY_SIZE = 1024 * 1024` (1 MB). -/
def MAX_BODY_SIZE : Nat := 1024 * 1024

/-- Result of `parseBody`: either the promise resolves with the body
(`none` for GET requests, which skip body parsing), or it rejects with
"Request body too large"; `destroyed` records whether `req.destroy()` ran. -/
structure ParseBodyOutcome where
  result : Option (Option String)
  destroyed : Bool
deriving DecidableEq

/-- The chunk-accumulation loop of `parseBody`: `size` accumulates byte
lengths; once `size > MAX_BODY_SIZE` the request is destroyed and the promise
rejects; otherwise at `end` the chunks are concatenated. -/
def parseBodyGo (size : Nat) (acc : List String) : List String → ParseBodyOutcome
  | [] => { result := some (some (String.join acc.reverse)), destroyed := false }
  | c :: rest =>
    let size' := size + c.utf8ByteSize
    if size' > MAX_BODY_SIZE then { result := none, destroyed := true }
    else parseBodyGo size' (c :: acc) rest

/-- `parseBody(req)`: GET requests resolve with `null` immediately; other
requests accumulate chunks under the 1 MB cap. -/
def parseBody (req : HttpRequest) : ParseBodyOutcome :=
  if req.method == some "GET" then { result := some none, destroyed := false }
  else parseBodyGo 0 [] req.chunks

/-- Characters of a URL before the first `?` (`url.split("?")[0]`). -/
def pathChars : List Char → List Char
  | [] => []
  | c :: rest => if c = '?' then [] else c :: pathChars rest

/-- Characters of a URL after the first `?` (`url.slice(url.indexOf("?") + 1)`),
or `none` when there is no `?`. -/
def queryChars : List Char → Option (List Char)
  | [] => none
  | c :: rest => if c = '?' then some rest else queryChars rest

/-- `createRouter(routes)`: strips the query string from the URL, looks up
`"METHOD path"` in the route table, and falls back to a 404. The route
handlers are modelled as `Option String → HttpReply` (the body argument). -/
def createRouter (routes : List (String × (Option String → HttpReply)))
    (method : Option String) (url : Option String) (body : Option String) : HttpReply :=
  let m := method.getD "GET"
  let u := url.getD "/"
  let path := String.mk (pathChars u.data)
  match routes.lookup (m ++ " " ++ path) with
  | some h => h body
  | none => sendError 404 ("Not found: " ++ m ++ " " ++ path)

/-- The request dispatch of `createHttpServer`: reject during shutdown with
503, parse the body (catching the "Request body too large" rejection as a
400), then route. The composed router is a parameter, as in the source where
`router` is a closure over the route table. -/
def httpServerDispatch (routerFn : Option String → Option String → Option String → HttpReply)
    (isShuttingDown : Bool) (req : HttpRequest) : HttpReply :=
  if isShuttingDown then sendError 503 "Server is shutting down"
  else
    match (parseBody req).result with
    | none => sendError 400 "Request body too large"
    | some body => routerFn req.method req.url body

-- ===========================================================================
-- http-server.ts: createHealthHandler
-- ===========================================================================

/-- JavaScript truthiness of `session.state.error` (a string or absent):
`!error` is true for `undefined` and for the empty string. -/
def sessionReady (s : AgentSession) : Bool :=
  match s.stateError with
  | none => true
  | some e => e == ""

/-- The query string of a URL: everything after the first `?`
(`url.slice(queryStart + 1)`), or `""` when there is no `?`. -/
def queryOfUrl (url : String) : String :=
  match queryChars url.data with
  | none => ""
  | some cs => String.mk cs

/-- Split a character list at every occurrence of `sep`
(JavaScript `String.prototype.split` with a one-character separator). -/
def splitOnChar (sep : Char) : List Char → List (List Char)
  | [] => [[]]
  | c :: rest =>
    match splitOnChar sep rest with
    | [] => if c = sep then [[], []] else [[c]]
    | seg :: segs => if c = sep then [] :: seg :: segs else (c :: seg) :: segs

/-- Split a `key=value` pair at its first `=`: the key, and the value when an
`=` is present. -/
def splitFirstEq : List Char → List Char × Option (List Char)
  | [] => ([], none)
  | c :: rest =>
    if c = '=' then ([], some rest)
    else
      match splitFirstEq rest with
      | (k, v) => (c :: k, v)

/-- `URLSearchParams.get(key)`: the first value bound to `key` in a
`&`-separated query string, splitting each pair at its first `=` (a key with
no `=` maps to the empty string, empty segments are skipped;
percent-decoding is not modelled). -/
def searchParamGet (query : String) (key : String) : Option String :=
  let pairs : List (String × String) := (splitOnChar '&' query.data).filterMap fun kv =>
    match kv with
    | [] => none
    | _ =>
      match splitFirstEq kv with
      | (k, none) => some (String.mk k, "")
      | (k, some v) => some (String.mk k, String.mk v)
  ((pairs.filter fun p => p.1 = key).head?).map (·.2)

/-- The `{status, ready, version, sessionId, isStreaming}` health response
object. `version` is the imported `VERSION` constant, passed as a parameter. -/
def healthResponseJson (version : String) (s : AgentSession) : Json :=
  Json.obj
    [("status", Json.str "ok"),
     ("ready", Json.bool (sessionReady s)),
     ("version", Json.str version),
     ("sessionId", Json.str s.sessionId),
     ("isStreaming", Json.bool s.isStreaming)]

/-- `createHealthHandler`: 503 with the health body when `?ready=true` and the
session is not ready, otherwise 200 with the same body. -/
def createHealthHandler (version : String) (s : AgentSession) (url : Option String) : HttpReply :=
  let ready := sessionReady s
  let healthResponse := healthResponseJson version s
  let query := queryOfUrl (url.getD "/")
  if searchParamGet query "ready" == some "true" && !ready then
    sendJson 503 healthResponse
  else
    sendJson 200 healthResponse

-- ===========================================================================
-- http-server.ts: createRpcHandler
-- ===========================================================================

/-- `createRpcHandler`, given the abstracted `JSON.parse` and whether
`withTimeout` fired (`RPC_TIMEOUT_MS` elapsing before the command handler
settles). Command execution itself is modelled as total, so the only `catch`
path is the timeout. -/
def createRpcHandler (s : AgentSession) (parse : String → JsonParseResult)
    (timedOut : Bool) (body : Option String) : HttpReply :=
  match body with
  | none => sendError 400 "Request body required"
  | some b =>
    if b = "" then sendError 400 "Request body required"
    else
      match parse b with
      | .fail => sendError 400 "Invalid JSON"
      | .ok command =>
        if !jsTruthy command || (getTypeString command).isNone then
          sendError 400 "Invalid command: missing type field"
        else if timedOut then
          sendJson 500 (rpcResponseToJson
            (errorResp (command.get "id") (command.get "type") "Command timed out"))
        else
          let response := (handleCommand s command).1
          sendJson (if response.success then 200 else 400) (rpcResponseToJson response)

-- ===========================================================================
-- http-server.ts: createExtensionUIResponseHandler
-- ===========================================================================

/-- Observable effects of the `/extension_ui_response` route handler, in
execution order: deleting a pending entry, calling its `resolve` with the
posted response, and sending an HTTP reply. Pending entries are identified by
an abstract handle. -/
inductive UiRespEffect where
  | mapDelete (id : String)
  | resolveCall (handle : Nat) (response : Json)
  | send (reply : HttpReply)

/-- `createExtensionUIResponseHandler`: validates the body, then looks up the
posted `id` in `pendingExtensionRequests` (modelled as an association list of
abstract handles); an unknown id is answered 200, a known one is deleted,
resolved with the posted response object, and then answered 200. -/
def createExtensionUIResponseHandler (pending : List (String × Nat))
    (parse : String → JsonParseResult) (body : Option String) : List UiRespEffect :=
  match body with
  | none => [.send (sendError 400 "Request body required")]
  | some b =>
    if b = "" then [.send (sendError 400 "Request body required")]
    else
      match parse b with
      | .fail => [.send (sendError 400 "Invalid JSON")]
      | .ok response =>
        if !jsTruthy response || !fieldIsStrVal response "type" "extension_ui_response" ||
            (getStrField response "id").isNone then
          [.send (sendError 400 "Invalid extension UI response: missing type or id field")]
        else
          let id := (getStrField response "id").getD ""
          match pending.lookup id with
          | none =>
            [.send (sendJson 200 (Json.obj
              [("success", Json.bool true),
               ("message", Json.str "Request not found (may have timed out)")]))]
          | some handle =>
            [.mapDelete id, .resolveCall handle response,
             .send (sendJson 200 (Json.obj [("success", Json.bool true)]))]

-- ===========================================================================
-- http-mode.ts: SSE broadcast and the events handler
-- ===========================================================================

/-- One SSE subscriber connection (`http.ServerResponse` in the set
`sseConnections`): `closed` is true when the underlying transport has closed,
in which case writing to it throws. -/
structure SseConnState where
  connId : Nat
  closed : Bool
deriving DecidableEq

/-- `writeSseEvent(res, eventType, data)`: the two `res.write` calls, which
throw when the connection is closed. `some` is a successful delivery record. -/
def writeSseEvent (c : SseConnState) (eventType : String) (data : Json) :
    Option (Nat × String × Json) :=
  if c.closed then none else some (c.connId, eventType, data)

/-- The `for (const res of connections)` loop of `broadcastSseEvent`: each
write runs inside `try`/`catch`, so a throwing write is skipped and iteration
continues with the remaining subscribers. `delivered` accumulates the
successful deliveries in order. -/
def broadcastLoop (eventType : String) (data : Json)
    (delivered : List (Nat × String × Json)) : List SseConnState → List (Nat × String × Json)
  | [] => delivered
  | c :: rest =>
    match writeSseEvent c eventType data with
    | some d => broadcastLoop eventType data (delivered ++ [d]) rest
    | none => broadcastLoop eventType data delivered rest

/-- `broadcastSseEvent(connections, eventType, data)`: returns the deliveries
made. Session events (`agent_event`), `heartbeat`, and `extension_ui_request`
are all sent through this function. -/
def broadcastSseEvent (connections : List SseConnState) (eventType : String)
    (data : Json) : List (Nat × String × Json) :=
  broadcastLoop eventType data [] connections

/-- `createEventsHandler` adds the new connection to `sseConnections` and
registers `res.on("close", () => sseConnections.delete(res))`. -/
def createEventsHandler (connections : List SseConnState) (c : SseConnState) :
    List SseConnState :=
  connections ++ [c]

/-- Effect of the registered close handlers once the runtime has fired
`close` for every connection whose transport closed (a failed write means the
transport is closed, so its close handler deletes it from the set before the
next broadcast). -/
def fireCloseHandlers (connections : List SseConnState) : List SseConnState :=
  connections.filter (fun c => !c.closed)

-- ===========================================================================
-- http-mode.ts: createDialogPromise and the editor method
-- ===========================================================================

/-- `ExtensionUIDialogOptions` as consumed by `createDialogPromise`: an
optional `AbortSignal` (with its `aborted` flag) and an optional timeout in
milliseconds. -/
structure ExtensionUIDialogOptions where
  signalPresent : Bool
  signalAborted : Bool
  timeout : Option Nat
deriving DecidableEq

/-- `opts?.signal?.aborted` for a possibly-`undefined` options argument. -/
def optsSignalAborted : Option ExtensionUIDialogOptions → Bool
  | none => false
  | some o => o.signalPresent && o.signalAborted

/-- `opts?.signal` is present (an abort listener gets registered). -/
def optsSignalPresent : Option ExtensionUIDialogOptions → Bool
  | none => false
  | some o => o.signalPresent

/-- Truthiness of `opts?.timeout` (`if (opts?.timeout)`): a timer is started
only for a present, non-zero timeout. -/
def optsTimeoutTruthy : Option ExtensionUIDialogOptions → Bool
  | none => false
  | some o => match o.timeout with
    | none => false
    | some n => n != 0

/-- State of the promise returned by a dialog method. A dialog value is
`Option Json` with `none` for `undefined`. -/
inductive PromiseState where
  | pending
  | resolvedWith (v : Option Json)
  | rejectedWith (msg : String)

/-- State of one dialog round-trip: the promise, whether its id is still in
`pendingExtensionRequests`, and whether the timeout timer and the abort
listener are active (cleanup clears both). -/
structure DialogState where
  promise : PromiseState
  inMap : Bool
  timerActive : Bool
  abortListenerActive : Bool

/-- The events that can settle a dialog round-trip: the abort signal firing,
the timeout timer firing, a response arriving via `POST
/extension_ui_response`, and the shutdown loop rejecting all pending
entries. -/
inductive DialogEvent where
  | abortFired
  | timeoutFired
  | responsePosted (r : Json)
  | shutdownReject (msg : String)

/-- The synchronous part of `createDialogPromise`: an already-aborted signal
short-circuits to the default value with no SSE broadcast and no map entry;
otherwise the entry is registered, the timer/listener are set up, and the
`extension_ui_request` is broadcast. The second component is the list of
UI-request payloads passed to `broadcastSseEvent`. -/
def createDialogPromiseInit (opts : Option ExtensionUIDialogOptions)
    (defaultValue : Option Json) (request : Json) : DialogState × List Json :=
  if optsSignalAborted opts then
    ({ promise := .resolvedWith defaultValue, inMap := false,
       timerActive := false, abortListenerActive := false }, [])
  else
    ({ promise := .pending, inMap := true,
       timerActive := optsTimeoutTruthy opts,
       abortListenerActive := optsSignalPresent opts }, [request])

/-- One event applied to a `createDialogPromise` round-trip. `cleanup` clears
the timer, removes the abort listener and deletes the map entry, so each
branch fires at most once; the `reject` path (shutdown) also resolves with
the default value. -/
def dialogStep (defaultValue : Option Json) (parseResponse : Json → Option Json)
    (st : DialogState) (ev : DialogEvent) : DialogState :=
  match ev with
  | .abortFired =>
    if st.abortListenerActive then
      { promise := .resolvedWith defaultValue, inMap := false,
        timerActive := false, abortListenerActive := false }
    else st
  | .timeoutFired =>
    if st.timerActive then
      { promise := .resolvedWith defaultValue, inMap := false,
        timerActive := false, abortListenerActive := false }
    else st
  | .responsePosted r =>
    if st.inMap then
      { promise := .resolvedWith (parseResponse r), inMap := false,
        timerActive := false, abortListenerActive := false }
    else st
  | .shutdownReject _ =>
    if st.inMap then
      { promise := .resolvedWith defaultValue, inMap := false,
        timerActive := false, abortListenerActive := false }
    else st

/-- The `parseResponse` closure of `select` (and `input`):
`"cancelled" in r && r.cancelled ? undefined : "value" in r ? r.value :
undefined`. -/
def parseSelectResponse (r : Json) : Option Json :=
  if (r.get "cancelled").isSome && jsTruthy ((r.get "cancelled").getD Json.null) then none
  else if (r.get "value").isSome then r.get "value"
  else none

/-- The `parseResponse` closure of `confirm`:
`"cancelled" in r && r.cancelled ? false : "confirmed" in r ? r.confirmed :
false`. -/
def parseConfirmResponse (r : Json) : Option Json :=
  if (r.get "cancelled").isSome && jsTruthy ((r.get "cancelled").getD Json.null) then
    some (Json.bool false)
  else if (r.get "confirmed").isSome then r.get "confirmed"
  else some (Json.bool false)

/-- The synchronous part of `editor(title, prefill)`: unlike
`createDialogPromise` it takes no options, checks no signal, and starts no
timer — it only registers the pending entry and broadcasts the request. -/
def editorInit (request : Json) : DialogState × List Json :=
  ({ promise := .pending, inMap := true,
     timerActive := false, abortListenerActive := false }, [request])

/-- One event applied to an `editor` round-trip: only a posted response or
the shutdown rejection settle it (and shutdown rejects the promise instead
of resolving a default); timeout and abort events find nothing registered. -/
def editorStep (st : DialogState) (ev : DialogEvent) : DialogState :=
  match ev with
  | .abortFired => st
  | .timeoutFired => st
  | .responsePosted r =>
    if st.inMap then
      { promise := .resolvedWith (parseSelectResponse r), inMap := false,
        timerActive := false, abortListenerActive := false }
    else st
  | .shutdownReject msg =>
    if st.inMap then
      { promise := .rejectedWith msg, inMap := false,
        timerActive := false, abortListenerActive := false }
    else st

-- ===========================================================================
-- Concrete sample data for witnesses
-- ===========================================================================

/-- A concrete healthy session used by witnesses. -/
def sampleSession : AgentSession :=
  { model := Json.str "gpt-4", thinkingLevel := Json.str "off", isStreaming := false,
    isCompacting := false, steeringMode := Json.str "all", followUpMode := Json.str "all",
    sessionFile := Json.null, sessionId := "sess-1", autoCompactionEnabled := true,
    messages := [], pendingMessageCount := 0,
    availableModels := [{ provider := "openai", id := "gpt-4" }],
    promptOutcome := .ok (), cycleModelResult := none, cycleThinkingLevelResult := none,
    compactResult := Json.null, bashResult := Json.null, sessionStats := Json.null,
    exportHtmlPath := "/tmp/session.html", newSessionOk := true, switchSessionOk := true,
    forkSelectedText := Json.null, forkCancelled := false, forkMessages := [],
    lastAssistantText := Json.null, stateError := none }

/-- A session whose (unawaited) `prompt` promise eventually rejects. -/
def sampleFailSession : AgentSession :=
  { sampleSession with promptOutcome := .error "model exploded" }

/-- A session in an error state (not ready). -/
def sampleErrSession : AgentSession :=
  { sampleSession with stateError := some "provider down" }

/-- A command with an unknown `type` and a correlation `id`. -/
def unknownCmd : Json :=
  Json.obj [("type", Json.str "bogus"), ("id", Json.str "req-1")]

/-- A well-formed `get_state` command with a correlation id. -/
def getStateCmd : Json :=
  Json.obj [("type", Json.str "get_state"), ("id", Json.str "q1")]

/-- A well-formed `prompt` command with a correlation id. -/
def promptCmd : Json :=
  Json.obj [("type", Json.str "prompt"), ("id", Json.str "p1"), ("message", Json.str "hi")]

/-- A `set_model` command naming a model that does not exist in
`sampleSession.availableModels`. -/
def setModelBadCmd : Json :=
  Json.obj [("type", Json.str "set_model"), ("id", Json.str "m1"),
            ("provider", Json.str "acme"), ("modelId", Json.str "nope")]

-- ===========================================================================
-- Helper lemmas about the command handler
-- ===========================================================================

/-- A command whose string `type` is outside the closed command set falls into
the `default` case: `error(undefined, command.type, ...)`. -/
theorem handleCommand_unknown_eq (s : AgentSession) (cmd : Json) (t : String)
    (ht : cmd.get "type" = some (Json.str t)) (hk : t ∉ knownCommandTypes) :
    handleCommand s cmd =
      (errorResp none (some (Json.str t)) ("Unknown command: " ++ t), []) := by
  simp only [knownCommandTypes, List.mem_cons, List.not_mem_nil, or_false, not_or] at hk
  obtain ⟨h1, h2, h3, h4, h5, h6, h7, h8, h9, h10, h11, h12, h13, h14, h15, h16, h17, h18,
    h19, h20, h21, h22, h23, h24, h25, h26⟩ := hk
  simp [handleCommand, ht, h1, h2, h3, h4, h5, h6, h7, h8, h9, h10, h11, h12, h13, h14,
    h15, h16, h17, h18, h19, h20, h21, h22, h23, h24, h25, h26]

-- ===========================================================================
-- C1
-- ===========================================================================

/-- C1 (amended): every command whose `type` is one of the closed command set
returns a `{id, type:"response", command, success, data?|error?}` response
whose `id` equals the submitted command's `id`; a command whose `type` is not
in the closed set (or is missing or not a string) yields `success:false`, but
its response `id` is `undefined` — the submitted command's id is NOT echoed
(the `default` case calls `error(undefined, ...)`). -/
theorem rpc_response_correlation_amended (s : AgentSession) (cmd : Json) :
    (∀ t, cmd.get "type" = some (Json.str t) → t ∈ knownCommandTypes →
      (handleCommand s cmd).1.rtype = "response" ∧
      (handleCommand s cmd).1.command = some (Json.str t) ∧
      (handleCommand s cmd).1.id = cmd.get "id") ∧
    (∀ t, cmd.get "type" = some (Json.str t) → t ∉ knownCommandTypes →
      (handleCommand s cmd).1.success = false ∧
      (handleCommand s cmd).1.id = none) ∧
    ((∀ t, cmd.get "type" ≠ some (Json.str t)) →
      (handleCommand s cmd).1.success = false ∧
      (handleCommand s cmd).1.id = none) := by
  refine ⟨?_, ?_, ?_⟩
  · intro t ht hk
    simp only [knownCommandTypes, List.mem_cons, List.not_mem_nil, or_false] at hk
    rcases hk with rfl|rfl|rfl|rfl|rfl|rfl|rfl|rfl|rfl|rfl|rfl|rfl|rfl|rfl|rfl|rfl|rfl|rfl|rfl|rfl|rfl|rfl|rfl|rfl|rfl|rfl
    all_goals simp [handleCommand, ht, successResp, errorResp]
    all_goals (split <;> simp [successResp, errorResp])
  · intro t ht hk
    rw [handleCommand_unknown_eq s cmd t ht hk]
    simp [errorResp]
  · intro hns
    rcases hty : cmd.get "type" with _ | j
    · simp [handleCommand, hty, errorResp]
    · cases j with
      | str t => exact absurd hty (hns t)
      | null => simp [handleCommand, hty, errorResp]
      | bool b => simp [handleCommand, hty, errorResp]
      | num n => simp [handleCommand, hty, errorResp]
      | arr elems => simp [handleCommand, hty, errorResp]
      | obj fields => simp [handleCommand, hty, errorResp]

/-- C1 witness: a known command (`get_state` with id `"q1"`) echoes its id. -/
theorem rpc_response_correlation_amended_witness :
    (handleCommand sampleSession getStateCmd).1.rtype = "response" ∧
    (handleCommand sampleSession getStateCmd).1.command = some (Json.str "get_state") ∧
    (handleCommand sampleSession getStateCmd).1.id = getStateCmd.get "id" :=
  (rpc_response_correlation_amended sampleSession getStateCmd).1 "get_state" rfl
    (by decide)

/-- C1 counterexample: a command with unknown type `"bogus"` and id `"req-1"`
gets a `success:false` response whose `id` is `undefined`, not `"req-1"`. -/
theorem rpc_unknown_command_id_counterexample :
    (handleCommand sampleSession unknownCmd).1.success = false ∧
    (handleCommand sampleSession unknownCmd).1.id = none ∧
    unknownCmd.get "id" = some (Json.str "req-1") ∧
    (handleCommand sampleSession unknownCmd).1.id ≠ unknownCmd.get "id" := by
  refine ⟨rfl, rfl, rfl, ?_⟩
  show (none : Option Json) ≠ some (Json.str "req-1")
  simp

-- ===========================================================================
-- C5
-- ===========================================================================

/-- C5: the `prompt` case returns `success:true` synchronously without
awaiting the started turn: the response is the same for every eventual
outcome of the unawaited `session.prompt` promise, and a failing turn is
reported only through the `onAsyncError` callback (in HTTP mode the event
plane, since `onAsyncError` is `undefined` there). -/
theorem prompt_returns_success_synchronously (s : AgentSession) (cmd : Json)
    (ht : cmd.get "type" = some (Json.str "prompt")) :
    handleCommand s cmd =
      (successResp (cmd.get "id") "prompt" none,
       match s.promptOutcome with
       | .ok _ => []
       | .error e => [(cmd.get "id", "prompt", e)]) ∧
    (handleCommand s cmd).1.success = true := by
  constructor
  · simp [handleCommand, ht]
  · simp [handleCommand, ht, successResp]

/-- C5 witness: on a session whose turn eventually fails, the `prompt`
response is still `success:true`, and the failure goes to `onAsyncError`. -/
theorem prompt_returns_success_synchronously_witness :
    (handleCommand sampleFailSession promptCmd).1.success = true ∧
    (handleCommand sampleFailSession promptCmd).2 =
      [(some (Json.str "p1"), "prompt", "model exploded")] := by
  have h := prompt_returns_success_synchronously sampleFailSession promptCmd rfl
  refine ⟨h.2, ?_⟩
  rw [h.1]
  rfl

-- ===========================================================================
-- C9
-- ===========================================================================

/-- C9: for a well-formed command (non-empty body, valid JSON, truthy value
with a string `type`) that the handler settles before the 5-minute timeout,
the HTTP status of `POST /rpc` is 200 exactly when the handler response has
`success:true` and 400 exactly when it has `success:false`, and the body is
the command-level response object itself. -/
theorem rpc_status_tracks_success (s : AgentSession) (parse : String → JsonParseResult)
    (b : String) (j : Json) (hb : b ≠ "") (hp : parse b = .ok j)
    (htr : jsTruthy j = true) (hty : (getTypeString j).isSome = true) :
    createRpcHandler s parse false (some b) =
      sendJson (if (handleCommand s j).1.success then 200 else 400)
        (rpcResponseToJson (handleCommand s j).1) ∧
    ((createRpcHandler s parse false (some b)).status = 200 ↔
      (handleCommand s j).1.success = true) ∧
    ((createRpcHandler s parse false (some b)).status = 400 ↔
      (handleCommand s j).1.success = false) := by
  have hmain : createRpcHandler s parse false (some b) =
      sendJson (if (handleCommand s j).1.success then 200 else 400)
        (rpcResponseToJson (handleCommand s j).1) := by
    obtain ⟨t, hts⟩ := Option.isSome_iff_exists.mp hty
    simp [createRpcHandler, hb, hp, htr, hts]
  refine ⟨hmain, ?_, ?_⟩
  · rw [hmain]
    cases hsucc : (handleCommand s j).1.success <;> simp [sendJson]
  · rw [hmain]
    cases hsucc : (handleCommand s j).1.success <;> simp [sendJson]

/-- C9 witness: `set_model` naming a model that does not exist is a valid
command type that fails for a domain reason; `POST /rpc` surfaces it as
HTTP 400. -/
theorem rpc_status_tracks_success_witness :
    (createRpcHandler sampleSession (fun _ => .ok setModelBadCmd) false (some "X")).status
      = 400 := by
  have h := rpc_status_tracks_success sampleSession (fun _ => .ok setModelBadCmd) "X"
    setModelBadCmd (by decide) rfl rfl rfl
  exact h.2.2.mpr rfl

-- ===========================================================================
-- C4
-- ===========================================================================

/-- C4: `POST /rpc` answers 400 when the body is absent or empty, when it is
not valid JSON, when the parsed command lacks a string `type` field (or is
falsy), and when the command type is unknown; and in every case the reply
body is a single JSON object. -/
theorem rpc_malformed_request_400 (s : AgentSession) (parse : String → JsonParseResult)
    (timedOut : Bool) :
    (createRpcHandler s parse timedOut none = sendError 400 "Request body required") ∧
    (createRpcHandler s parse timedOut (some "") = sendError 400 "Request body required") ∧
    (∀ b, b ≠ "" → parse b = .fail →
      createRpcHandler s parse timedOut (some b) = sendError 400 "Invalid JSON") ∧
    (∀ b j, b ≠ "" → parse b = .ok j →
      (!jsTruthy j || (getTypeString j).isNone) = true →
      createRpcHandler s parse timedOut (some b) =
        sendError 400 "Invalid command: missing type field") ∧
    (∀ b j t, b ≠ "" → parse b = .ok j → jsTruthy j = true →
      j.get "type" = some (Json.str t) → t ∉ knownCommandTypes → timedOut = false →
      (createRpcHandler s parse timedOut (some b)).status = 400 ∧
      (createRpcHandler s parse timedOut (some b)).body =
        rpcResponseToJson (errorResp none (some (Json.str t)) ("Unknown command: " ++ t))) ∧
    (∀ body, ((createRpcHandler s parse timedOut body).body.isObj = true)) := by
  refine ⟨by simp [createRpcHandler], by simp [createRpcHandler], ?_, ?_, ?_, ?_⟩
  · intro b hb hp
    simp [createRpcHandler, hb, hp]
  · intro b j hb hp hbad
    simp only [createRpcHandler, hb, hp]
    simp [hbad]
  · intro b j t hb hp htr hty hk htime
    subst htime
    have hts : getTypeString j = some t := by simp [getTypeString, hty]
    have hu := handleCommand_unknown_eq s j t hty hk
    have : createRpcHandler s parse false (some b) =
        sendJson 400 (rpcResponseToJson (errorResp none (some (Json.str t))
          ("Unknown command: " ++ t))) := by
      simp [createRpcHandler, hb, hp, htr, hts, hu, errorResp]
    rw [this]
    exact ⟨rfl, rfl⟩
  · intro body
    unfold createRpcHandler
    rcases body with _ | b
    · rfl
    · by_cases hb : b = ""
      · simp [hb, sendError, sendJson, Json.isObj]
      · simp only [hb]
        rcases parse b with _ | j
        · simp [sendError, sendJson, Json.isObj]
        · by_cases hbad : (!jsTruthy j || (getTypeString j).isNone) = true
          · simp [hbad, sendError, sendJson, Json.isObj]
          · by_cases ht2 : timedOut
            · simp [hbad, ht2, sendJson, rpcResponseToJson, Json.isObj]
            · simp [hbad, ht2, sendJson, rpcResponseToJson, Json.isObj]

/-- C4 witness: concrete instances of each malformed-request case, all
answered 400 with a JSON object body. -/
theorem rpc_malformed_request_400_witness :
    (createRpcHandler sampleSession (fun _ => .fail) false none =
      sendError 400 "Request body required") ∧
    (createRpcHandler sampleSession (fun _ => .fail) false (some "not-json") =
      sendError 400 "Invalid JSON") ∧
    (createRpcHandler sampleSession (fun _ => .ok (Json.obj [("foo", Json.null)])) false
      (some "notype") = sendError 400 "Invalid command: missing type field") ∧
    (createRpcHandler sampleSession (fun _ => .ok unknownCmd) false (some "u")).status = 400 := by
  refine ⟨(rpc_malformed_request_400 sampleSession (fun _ => .fail) false).1, ?_, ?_, ?_⟩
  · exact (rpc_malformed_request_400 sampleSession (fun _ => .fail) false).2.2.1
      "not-json" (by decide) rfl
  · exact (rpc_malformed_request_400 sampleSession
      (fun _ => .ok (Json.obj [("foo", Json.null)])) false).2.2.2.1
      "notype" (Json.obj [("foo", Json.null)]) (by decide) rfl rfl
  · exact ((rpc_malformed_request_400 sampleSession (fun _ => .ok unknownCmd) false).2.2.2.2.1
      "u" unknownCmd "bogus" (by decide) rfl rfl rfl (by decide) rfl).1

-- ===========================================================================
-- C7
-- ===========================================================================

/-- C7: `GET /health` always answers with the
`{status, ready, version, sessionId, isStreaming}` object, with status 503
exactly when the query's `ready` parameter is `"true"` and the session is not
ready, and 200 in every other case. -/
theorem health_handler_body_and_status (version : String) (s : AgentSession)
    (url : Option String) :
    (createHealthHandler version s url).body = healthResponseJson version s ∧
    (createHealthHandler version s url).body.get "status" = some (Json.str "ok") ∧
    (createHealthHandler version s url).body.get "ready" =
      some (Json.bool (sessionReady s)) ∧
    (createHealthHandler version s url).body.get "version" = some (Json.str version) ∧
    (createHealthHandler version s url).body.get "sessionId" =
      some (Json.str s.sessionId) ∧
    (createHealthHandler version s url).body.get "isStreaming" =
      some (Json.bool s.isStreaming) ∧
    (createHealthHandler version s url).status =
      (if searchParamGet (queryOfUrl (url.getD "/")) "ready" == some "true"
          && !sessionReady s then 503 else 200) := by
  have hbody : (createHealthHandler version s url).body = healthResponseJson version s := by
    by_cases hc : (searchParamGet (queryOfUrl (url.getD "/")) "ready" == some "true"
        && !sessionReady s) = true
    · simp [createHealthHandler, hc, sendJson]
    · simp [createHealthHandler, hc, sendJson]
  have hstat : (createHealthHandler version s url).status =
      (if searchParamGet (queryOfUrl (url.getD "/")) "ready" == some "true"
          && !sessionReady s then 503 else 200) := by
    by_cases hc : (searchParamGet (queryOfUrl (url.getD "/")) "ready" == some "true"
        && !sessionReady s) = true
    · simp [createHealthHandler, hc, sendJson]
    · simp [createHealthHandler, hc, sendJson]
  refine ⟨hbody, ?_, ?_, ?_, ?_, ?_, hstat⟩ <;>
    rw [hbody] <;> simp [healthResponseJson, Json.get, List.lookup]

/-- C7 has no hypotheses beyond its universally quantified inputs, but a
concrete readiness-probe check: an errored session probed with `?ready=true`
gets 503, a healthy one gets 200. -/
theorem health_handler_body_and_status_witness :
    (createHealthHandler "1.2.3" sampleErrSession (some "/health?ready=true")).status = 503 ∧
    (createHealthHandler "1.2.3" sampleSession (some "/health?ready=true")).status = 200 ∧
    (createHealthHandler "1.2.3" sampleErrSession (some "/health")).status = 200 := by
  refine ⟨?_, ?_, ?_⟩
  · rw [(health_handler_body_and_status "1.2.3" sampleErrSession
      (some "/health?ready=true")).2.2.2.2.2.2]
    rfl
  · rw [(health_handler_body_and_status "1.2.3" sampleSession
      (some "/health?ready=true")).2.2.2.2.2.2]
    rfl
  · rw [(health_handler_body_and_status "1.2.3" sampleErrSession
      (some "/health")).2.2.2.2.2.2]
    rfl

-- ===========================================================================
-- C8
-- ===========================================================================

/-- Characterization of the chunk-accumulation loop of `parseBody`: starting
under the cap, it rejects (destroying the request) exactly when the total
byte size overflows the cap, and otherwise resolves with the concatenation of
all chunks. -/
theorem parseBodyGo_spec (chunks : List String) :
    ∀ (size : Nat) (acc : List String), size ≤ MAX_BODY_SIZE →
      (size + (chunks.map String.utf8ByteSize).sum > MAX_BODY_SIZE →
        parseBodyGo size acc chunks = { result := none, destroyed := true }) ∧
      (size + (chunks.map String.utf8ByteSize).sum ≤ MAX_BODY_SIZE →
        parseBodyGo size acc chunks =
          { result := some (some (String.join (acc.reverse ++ chunks))),
            destroyed := false }) := by
  induction chunks with
  | nil =>
    intro size acc hsize
    constructor
    · intro hover
      simp at hover
      omega
    · intro _
      simp [parseBodyGo]
  | cons c rest ih =>
    intro size acc hsize
    constructor
    · intro hover
      by_cases hc : size + c.utf8ByteSize > MAX_BODY_SIZE
      · simp [parseBodyGo, hc]
      · have hc' : size + c.utf8ByteSize ≤ MAX_BODY_SIZE := by omega
        have := (ih (size + c.utf8ByteSize) (c :: acc) hc').1
        simp only [parseBodyGo, hc, if_false]
        apply this
        simp at hover ⊢
        omega
    · intro hunder
      have hc : ¬(size + c.utf8ByteSize > MAX_BODY_SIZE) := by
        simp at hunder
        omega
      have hc' : size + c.utf8ByteSize ≤ MAX_BODY_SIZE := by omega
      have := (ih (size + c.utf8ByteSize) (c :: acc) hc').2
      simp only [parseBodyGo, hc, if_false]
      rw [this]
      · simp
      · simp at hunder ⊢
        omega

/-- C8: for a non-GET request, a body whose total size exceeds 1 MB makes the
server destroy the request and answer 400 without routing; a body at or under
the cap is read in full and handed to the router unchanged. -/
theorem body_cap_one_megabyte
    (routerFn : Option String → Option String → Option String → HttpReply)
    (req : HttpRequest) (hm : req.method ≠ some "GET") :
    ((req.chunks.map String.utf8ByteSize).sum > MAX_BODY_SIZE →
      httpServerDispatch routerFn false req = sendError 400 "Request body too large" ∧
      (parseBody req).destroyed = true) ∧
    ((req.chunks.map String.utf8ByteSize).sum ≤ MAX_BODY_SIZE →
      httpServerDispatch routerFn false req =
        routerFn req.method req.url (some (String.join req.chunks)) ∧
      (parseBody req).destroyed = false) := by
  have hmb : (req.method == some "GET") = false := by
    simp [hm]
  constructor
  · intro hover
    have hgo := (parseBodyGo_spec req.chunks 0 [] (Nat.zero_le _)).1 (by omega)
    have hpb : parseBody req = { result := none, destroyed := true } := by
      rw [parseBody, hmb]
      simpa using hgo
    refine ⟨?_, by rw [hpb]⟩
    rw [httpServerDispatch, hpb]
    rfl
  · intro hunder
    have hgo := (parseBodyGo_spec req.chunks 0 [] (Nat.zero_le _)).2 (by omega)
    have hpb : parseBody req =
        { result := some (some (String.join req.chunks)), destroyed := false } := by
      rw [parseBody, hmb]
      simpa using hgo
    refine ⟨?_, by rw [hpb]⟩
    rw [httpServerDispatch, hpb]
    rfl

/-- C8 witness: a concrete POST whose chunks are under the cap is routed with
the concatenated body. -/
theorem body_cap_one_megabyte_witness :
    httpServerDispatch (fun _ _ body => sendJson 200 (Json.str (body.getD "")))
      false { method := some "POST", url := some "/rpc", chunks := ["hel", "lo"] } =
      sendJson 200 (Json.str "hello") := by
  have h := (body_cap_one_megabyte
    (fun _ _ body => sendJson 200 (Json.str (body.getD "")))
    { method := some "POST", url := some "/rpc", chunks := ["hel", "lo"] }
    (by simp)).2 (by decide)
  rw [h.1]
  rfl

-- ===========================================================================
-- C2
-- ===========================================================================

/-- Unfolding of the broadcast loop: the deliveries are exactly the open
connections, in order, appended to the accumulator. -/
theorem broadcastLoop_spec (eventType : String) (data : Json) :
    ∀ (conns : List SseConnState) (acc : List (Nat × String × Json)),
      broadcastLoop eventType data acc conns =
      acc ++ (conns.filter fun c => !c.closed).map (fun c => (c.connId, eventType, data)) := by
  intro conns
  induction conns with
  | nil => intro acc; simp [broadcastLoop]
  | cons c rest ih =>
    intro acc
    by_cases hc : c.closed
    · simp [broadcastLoop, writeSseEvent, hc, ih]
    · simp [broadcastLoop, writeSseEvent, hc, ih]

/-- C2: broadcasting an event (session event or heartbeat) delivers to every
subscriber whose transport is open, regardless of how many other subscribers'
writes fail (the `try`/`catch` skips them without aborting the loop); a
subscriber whose write failed (closed transport) is no longer in the
subscriber set once its registered `close` handler has run, i.e. by the next
broadcast, while every open subscriber is retained. -/
theorem sse_broadcast_write_error_isolation (conns : List SseConnState)
    (eventType : String) (data : Json) :
    broadcastSseEvent conns eventType data =
      (conns.filter fun c => !c.closed).map (fun c => (c.connId, eventType, data)) ∧
    (∀ c ∈ conns, c.closed = false →
      (c.connId, eventType, data) ∈ broadcastSseEvent conns eventType data) ∧
    (∀ c ∈ conns, c.closed = true → c ∉ fireCloseHandlers conns) ∧
    (∀ c ∈ conns, c.closed = false → c ∈ fireCloseHandlers conns) := by
  have heq : broadcastSseEvent conns eventType data =
      (conns.filter fun c => !c.closed).map (fun c => (c.connId, eventType, data)) := by
    unfold broadcastSseEvent
    simpa using broadcastLoop_spec eventType data conns []
  refine ⟨heq, ?_, ?_, ?_⟩
  · intro c hmem hopen
    rw [heq]
    exact List.mem_map_of_mem _ (List.mem_filter.mpr ⟨hmem, by simp [hopen]⟩)
  · intro c hmem hclosed
    simp [fireCloseHandlers, hclosed]
  · intro c hmem hopen
    exact List.mem_filter.mpr ⟨hmem, by simp [hopen]⟩

/-- C2 witness: with subscribers 1 (open), 2 (closed), 3 (open), subscriber 3
still receives the event despite subscriber 2's failing write, subscriber 2
is gone from the set by the next broadcast, and subscriber 1 survives. -/
theorem sse_broadcast_write_error_isolation_witness :
    ((3 : Nat), "agent_event", Json.null) ∈
      broadcastSseEvent [⟨1, false⟩, ⟨2, true⟩, ⟨3, false⟩] "agent_event" Json.null ∧
    (⟨2, true⟩ : SseConnState) ∉ fireCloseHandlers [⟨1, false⟩, ⟨2, true⟩, ⟨3, false⟩] ∧
    (⟨1, false⟩ : SseConnState) ∈ fireCloseHandlers [⟨1, false⟩, ⟨2, true⟩, ⟨3, false⟩] := by
  have h := sse_broadcast_write_error_isolation [⟨1, false⟩, ⟨2, true⟩, ⟨3, false⟩]
    "agent_event" Json.null
  exact ⟨h.2.1 ⟨3, false⟩ (by decide) rfl, h.2.2.1 ⟨2, true⟩ (by decide) rfl,
    h.2.2.2 ⟨1, false⟩ (by decide) rfl⟩

-- ===========================================================================
-- C3
-- ===========================================================================

/-- C3 (amended): for the dialog methods built on `createDialogPromise`
(`select`, `confirm`, `input`), a specified (non-zero) timeout elapsing with
no matching response resolves the promise with the method's default value
(`undefined` for select/input, `false` for confirm — the quantified
`defaultValue`) and deletes the pending entry, and an abort signal firing has
the same effect. The `editor` method is the exception the code carves out: it
accepts no options, registers neither a timer nor an abort listener, and its
promise stays pending (in the map) across timeout and abort events. -/
theorem dialog_timeout_abort_resolve_default (defaultValue : Option Json)
    (parseResponse : Json → Option Json) (o : ExtensionUIDialogOptions)
    (request : Json) (n : Nat) (htime : o.timeout = some n) (hn : n ≠ 0)
    (hna : o.signalAborted = false) :
    (dialogStep defaultValue parseResponse
        (createDialogPromiseInit (some o) defaultValue request).1 .timeoutFired =
      { promise := .resolvedWith defaultValue, inMap := false,
        timerActive := false, abortListenerActive := false }) ∧
    (o.signalPresent = true →
      dialogStep defaultValue parseResponse
          (createDialogPromiseInit (some o) defaultValue request).1 .abortFired =
        { promise := .resolvedWith defaultValue, inMap := false,
          timerActive := false, abortListenerActive := false }) ∧
    (∀ req2 : Json,
      editorStep (editorInit req2).1 .timeoutFired = (editorInit req2).1 ∧
      editorStep (editorInit req2).1 .abortFired = (editorInit req2).1 ∧
      (editorInit req2).1.promise = .pending ∧ (editorInit req2).1.inMap = true) := by
  have hinit : (createDialogPromiseInit (some o) defaultValue request).1 =
      { promise := .pending, inMap := true, timerActive := true,
        abortListenerActive := o.signalPresent } := by
    simp [createDialogPromiseInit, optsSignalAborted, hna, optsTimeoutTruthy, htime, hn,
      optsSignalPresent]
  refine ⟨?_, ?_, ?_⟩
  · rw [hinit]
    simp [dialogStep]
  · intro hsig
    rw [hinit]
    simp [dialogStep, hsig]
  · intro req2
    exact ⟨rfl, rfl, rfl, rfl⟩

/-- C3 witness: a confirm dialog (default `false`) with a 5-second timeout
and an abort signal resolves to `false` and leaves the map when the timer
fires. -/
theorem dialog_timeout_abort_resolve_default_witness :
    dialogStep (some (Json.bool false)) parseConfirmResponse
        (createDialogPromiseInit (some ⟨true, false, some 5000⟩)
          (some (Json.bool false)) (Json.obj [("method", Json.str "confirm")])).1
        .timeoutFired =
      { promise := .resolvedWith (some (Json.bool false)), inMap := false,
        timerActive := false, abortListenerActive := false } :=
  (dialog_timeout_abort_resolve_default (some (Json.bool false)) parseConfirmResponse
    ⟨true, false, some 5000⟩ (Json.obj [("method", Json.str "confirm")]) 5000
    rfl (by decide) rfl).1

/-- C3 counterexample: `editor` is listed among the dialog methods, but a
timeout elapsing does not resolve its promise with the default value
(`undefined`) and does not delete its pending entry — the promise is still
pending and the entry still in the map. -/
theorem dialog_editor_timeout_counterexample :
    (editorStep (editorInit (Json.obj [("method", Json.str "editor")])).1
        DialogEvent.timeoutFired).promise ≠ PromiseState.resolvedWith none ∧
    (editorStep (editorInit (Json.obj [("method", Json.str "editor")])).1
        DialogEvent.timeoutFired).promise = PromiseState.pending ∧
    (editorStep (editorInit (Json.obj [("method", Json.str "editor")])).1
        DialogEvent.timeoutFired).inMap = true := by
  refine ⟨?_, rfl, rfl⟩
  show PromiseState.pending ≠ PromiseState.resolvedWith none
  simp

-- ===========================================================================
-- C10
-- ===========================================================================

/-- C10: a dialog method built on `createDialogPromise` (`select`, `confirm`,
`input`) called with an already-aborted signal resolves immediately with the
default value: no `extension_ui_request` is handed to `broadcastSseEvent`
(empty broadcast list) and no entry is added to the pending-request map. -/
theorem dialog_preaborted_signal_immediate_default (defaultValue : Option Json)
    (o : ExtensionUIDialogOptions) (request : Json)
    (hp : o.signalPresent = true) (ha : o.signalAborted = true) :
    createDialogPromiseInit (some o) defaultValue request =
      ({ promise := .resolvedWith defaultValue, inMap := false,
         timerActive := false, abortListenerActive := false }, []) := by
  simp [createDialogPromiseInit, optsSignalAborted, hp, ha]

/-- C10 witness: a select dialog (default `undefined`) with a pre-aborted
signal resolves at once, broadcasting nothing and registering nothing. -/
theorem dialog_preaborted_signal_immediate_default_witness :
    createDialogPromiseInit (some ⟨true, true, none⟩) none
        (Json.obj [("method", Json.str "select")]) =
      ({ promise := .resolvedWith none, inMap := false,
         timerActive := false, abortListenerActive := false }, []) :=
  dialog_preaborted_signal_immediate_default none ⟨true, true, none⟩
    (Json.obj [("method", Json.str "select")]) rfl rfl

-- ===========================================================================
-- C6
-- ===========================================================================

/-- C6: `POST /extension_ui_response` with a well-formed body (truthy JSON,
`type === "extension_ui_response"`, string `id`) answers 200 even when the id
matches no pending request; when it does match, the entry is deleted from the
map and its promise resolved with the posted response object before the 200
is sent (the effect trace is delete, resolve, send). -/
theorem extension_ui_response_handler_spec (pending : List (String × Nat))
    (parse : String → JsonParseResult) (b : String) (r : Json) (idStr : String)
    (hb : b ≠ "") (hp : parse b = .ok r) (htr : jsTruthy r = true)
    (hty : fieldIsStrVal r "type" "extension_ui_response" = true)
    (hid : getStrField r "id" = some idStr) :
    (pending.lookup idStr = none →
      createExtensionUIResponseHandler pending parse (some b) =
        [.send (sendJson 200 (Json.obj
          [("success", Json.bool true),
           ("message", Json.str "Request not found (may have timed out)")]))]) ∧
    (∀ handle, pending.lookup idStr = some handle →
      createExtensionUIResponseHandler pending parse (some b) =
        [.mapDelete idStr, .resolveCall handle r,
         .send (sendJson 200 (Json.obj [("success", Json.bool true)]))]) := by
  constructor
  · intro hnone
    simp [createExtensionUIResponseHandler, hb, hp, htr, hty, hid, hnone]
  · intro handle hsome
    simp [createExtensionUIResponseHandler, hb, hp, htr, hty, hid, hsome]

/-- C6 witness: with pending entry `("ui-1", 7)`, a response for unknown id
`"ui-2"` is answered 200, and a response for `"ui-1"` is deleted, resolved
with the posted object, and answered 200. -/
theorem extension_ui_response_handler_spec_witness :
    (createExtensionUIResponseHandler [("ui-1", 7)]
      (fun _ => .ok (Json.obj [("type", Json.str "extension_ui_response"),
        ("id", Json.str "ui-2")])) (some "B") =
      [.send (sendJson 200 (Json.obj
        [("success", Json.bool true),
         ("message", Json.str "Request not found (may have timed out)")]))]) ∧
    (createExtensionUIResponseHandler [("ui-1", 7)]
      (fun _ => .ok (Json.obj [("type", Json.str "extension_ui_response"),
        ("id", Json.str "ui-1"), ("confirmed", Json.bool true)])) (some "B") =
      [.mapDelete "ui-1",
       .resolveCall 7 (Json.obj [("type", Json.str "extension_ui_response"),
        ("id", Json.str "ui-1"), ("confirmed", Json.bool true)]),
       .send (sendJson 200 (Json.obj [("success", Json.bool true)]))]) := by
  constructor
  · exact (extension_ui_response_handler_spec [("ui-1", 7)]
      (fun _ => .ok (Json.obj [("type", Json.str "extension_ui_response"),
        ("id", Json.str "ui-2")])) "B"
      (Json.obj [("type", Json.str "extension_ui_response"), ("id", Json.str "ui-2")])
      "ui-2" (by decide) rfl rfl (by decide) rfl).1 rfl
  · exact (extension_ui_response_handler_spec [("ui-1", 7)]
      (fun _ => .ok (Json.obj [("type", Json.str "extension_ui_response"),
        ("id", Json.str "ui-1"), ("confirmed", Json.bool true)])) "B"
      (Json.obj [("type", Json.str "extension_ui_response"),
        ("id", Json.str "ui-1"), ("confirmed", Json.bool true)])
      "ui-1" (by decide) rfl rfl (by decide) rfl).2 7 rfl
